import Mathlib

/-!
Verification of the request router of africa-server.js from the
africa-monitoring repository.

The server is a single http.createServer handler. It sets three CORS
headers on every response, answers OPTIONS requests immediately with
status 200 and an empty body, and otherwise dispatches on the raw
request URL by exact string equality: "/" and "/africa.html" serve the
static HTML file, "/africa_monitoring.json" serves the JSON data file,
and every other URL gets a plain-text 404. File reads happen fresh on
every request via fs.readFile, with the error branch producing the
corresponding 404 response.

We embed the handler as a pure function of the request and of the
filesystem state visible at the moment of the request, instrumented
with the list of file paths passed to fs.readFile while producing the
response.
-/

namespace AfricaServer

/-- An incoming HTTP request as the handler sees it: its method string
and its raw URL string (Node's req.url, which includes any query
string and is not normalised). -/
structure Request where
  method : String
  url : String
deriving DecidableEq

/-- The filesystem state visible to the server at the moment of one
request: the outcome of reading each of the two fixed paths the
handler ever touches. `none` models a read failure (file absent or
unreadable), `some s` a successful read returning content `s`. -/
structure Fs where
  africaHtml : Option String
  africaMonitoringJson : Option String
deriving DecidableEq

/-- An HTTP response: status code, the values of the three CORS
headers the handler installs with res.setHeader, the Content-Type
established by res.writeHead (`none` on the OPTIONS branch, whose
writeHead sets no Content-Type), and the body. -/
structure Response where
  status : Nat
  accessControlAllowOrigin : String
  accessControlAllowMethods : String
  accessControlAllowHeaders : String
  contentType : Option String
  body : String
deriving DecidableEq

/-- Builds a response carrying the three CORS header values that the
handler sets unconditionally before any routing decision. -/
def respond (status : Nat) (contentType : Option String) (body : String) : Response :=
  { status := status
    accessControlAllowOrigin := "*"
    accessControlAllowMethods := "GET, OPTIONS"
    accessControlAllowHeaders := "Content-Type"
    contentType := contentType
    body := body }

/-- The body the JSON route sends on read failure, exactly as produced
by JSON.stringify of the error object: `\x7b"error":"Data not found"\x7d`. -/
def dataNotFoundBody : String := "\x7b\"error\":\"Data not found\"\x7d"

/-- The plain-text body sent by the HTML route's error branch and by
the fallback branch. -/
def notFoundBody : String := "404 Not Found"

/-- The fallback response for unrecognised URLs: a text/plain 404. -/
def fallbackResponse : Response := respond 404 (some "text/plain") notFoundBody

/-- The africa-server.js request handler, instrumented: it returns the
response together with the list of file paths passed to fs.readFile
while producing it. Mirroring the source: the CORS headers are set
first; an OPTIONS request is answered 200 with an empty body before
any routing; otherwise req.url is compared by exact string equality
against "/", "/africa.html" and "/africa_monitoring.json"; the two
file routes read their file and answer 200 with the file content on
success and a format-appropriate 404 on failure; every other URL gets
the plain-text 404 fallback without touching the filesystem. -/
def handleT (fs : Fs) (req : Request) : Response × List String :=
  if req.method = "OPTIONS" then
    (respond 200 none "", [])
  else if req.url = "/" ∨ req.url = "/africa.html" then
    match fs.africaHtml with
    | some data => (respond 200 (some "text/html; charset=utf-8") data, ["africa.html"])
    | none => (respond 404 (some "text/plain") notFoundBody, ["africa.html"])
  else if req.url = "/africa_monitoring.json" then
    match fs.africaMonitoringJson with
    | some data =>
        (respond 200 (some "application/json; charset=utf-8") data, ["africa_monitoring.json"])
    | none => (respond 404 (some "application/json") dataNotFoundBody, ["africa_monitoring.json"])
  else
    (respond 404 (some "text/plain") notFoundBody, [])

/-- The response the handler produces, forgetting the instrumentation. -/
def handle (fs : Fs) (req : Request) : Response :=
  (handleT fs req).1

/-- The server processing a trace of requests. The handler closure has
no mutable state, so each request is answered from the filesystem
state paired with it, independently of the rest of the trace. -/
def serve (trace : List (Fs × Request)) : List Response :=
  trace.map (fun p => handle p.1 p.2)

/-- C1: in every filesystem state where the JSON data file is readable
with content d, GET /africa_monitoring.json returns status 200,
content-type application/json; charset=utf-8, and body d, the exact
file content. -/
theorem c1_json_success (h : Option String) (d : String) :
    handle ⟨h, some d⟩ ⟨"GET", "/africa_monitoring.json"⟩ =
      respond 200 (some "application/json; charset=utf-8") d := rfl

/-- C2: in every filesystem state where the HTML page file is readable
with content d, GET / and GET /africa.html both return status 200,
content-type text/html; charset=utf-8, and body d, the exact file
content. -/
theorem c2_html_success (j : Option String) (d : String) :
    handle ⟨some d, j⟩ ⟨"GET", "/"⟩ = respond 200 (some "text/html; charset=utf-8") d ∧
    handle ⟨some d, j⟩ ⟨"GET", "/africa.html"⟩ =
      respond 200 (some "text/html; charset=utf-8") d :=
  ⟨rfl, rfl⟩

/-- C3: in every filesystem state where the JSON data file is absent
or unreadable, GET /africa_monitoring.json returns exactly status 404,
content-type application/json, and the body produced by JSON.stringify
of the error object, namely `\x7b"error":"Data not found"\x7d`. -/
theorem c3_json_missing (h : Option String) :
    handle ⟨h, none⟩ ⟨"GET", "/africa_monitoring.json"⟩ =
      respond 404 (some "application/json") dataNotFoundBody := rfl

/-- C4: in every filesystem state where the HTML page file is absent
or unreadable, GET / and GET /africa.html both return status 404,
content-type text/plain, and body exactly "404 Not Found". -/
theorem c4_html_missing (j : Option String) :
    handle ⟨none, j⟩ ⟨"GET", "/"⟩ = respond 404 (some "text/plain") "404 Not Found" ∧
    handle ⟨none, j⟩ ⟨"GET", "/africa.html"⟩ =
      respond 404 (some "text/plain") "404 Not Found" :=
  ⟨rfl, rfl⟩

/-- C5: for every GET request whose URL is none of "/", "/africa.html"
and "/africa_monitoring.json", the response is the text/plain 404
fallback with body "404 Not Found", in every filesystem state. -/
theorem c5_unknown_path (fs : Fs) (u : String)
    (h1 : u ≠ "/") (h2 : u ≠ "/africa.html") (h3 : u ≠ "/africa_monitoring.json") :
    handle fs ⟨"GET", u⟩ = fallbackResponse := by
  unfold handle handleT fallbackResponse
  dsimp only
  rw [if_neg (by decide : ¬ ("GET" : String) = "OPTIONS"),
    if_neg (by rintro (h | h); exacts [h1 h, h2 h]), if_neg h3]

/-- Witness for C5 at the concrete URL "/unknown" with both files
present on disk. -/
theorem c5_unknown_path_witness :
    handle ⟨some "page", some "data"⟩ ⟨"GET", "/unknown"⟩ = fallbackResponse :=
  c5_unknown_path ⟨some "page", some "data"⟩ "/unknown" (by decide) (by decide) (by decide)

/-- C6: for every request URL and every filesystem state, an OPTIONS
request returns status 200 with no Content-Type, an empty body and the
CORS headers set, and the list of files read is empty. -/
theorem c6_options (fs : Fs) (u : String) :
    handleT fs ⟨"OPTIONS", u⟩ = (respond 200 none "", []) := rfl

/-- C7: every response, on every branch, carries the three CORS
headers Access-Control-Allow-Origin: *, Access-Control-Allow-Methods:
GET, OPTIONS, and Access-Control-Allow-Headers: Content-Type. -/
theorem c7_cors (fs : Fs) (req : Request) :
    (handle fs req).accessControlAllowOrigin = "*" ∧
    (handle fs req).accessControlAllowMethods = "GET, OPTIONS" ∧
    (handle fs req).accessControlAllowHeaders = "Content-Type" := by
  by_cases hm : req.method = "OPTIONS"
  · simp [handle, handleT, hm, respond]
  · by_cases h1 : req.url = "/" ∨ req.url = "/africa.html"
    · cases hh : fs.africaHtml <;> simp [handle, handleT, hm, h1, hh, respond]
    · by_cases h2 : req.url = "/africa_monitoring.json"
      · cases hj : fs.africaMonitoringJson <;> simp [handle, handleT, hm, h1, h2, hj, respond]
      · simp [handle, handleT, hm, h1, h2, respond]

/-- C8: the server keeps no cache and no in-memory copy: the response
to a request is exactly the handler applied to that request and the
filesystem state at its moment, so the last response of a trace is
independent of what was served before it; two requests made in
identical filesystem states receive identical responses regardless of
any earlier requests. -/
theorem c8_no_cache (pre1 pre2 : List (Fs × Request)) (p : Fs × Request) :
    (serve (pre1 ++ [p])).getLast? = some (handle p.1 p.2) ∧
    (serve (pre1 ++ [p])).getLast? = (serve (pre2 ++ [p])).getLast? := by
  constructor <;> simp [serve]

/-- C9: for methods other than OPTIONS the routing depends only on the
URL: any two non-OPTIONS requests with the same URL receive identical
responses in the same filesystem state. -/
theorem c9_method_irrelevant (fs : Fs) (m m' u : String)
    (hm : m ≠ "OPTIONS") (hm' : m' ≠ "OPTIONS") :
    handle fs ⟨m, u⟩ = handle fs ⟨m', u⟩ := by
  unfold handle handleT
  dsimp only
  rw [if_neg hm, if_neg hm']

/-- Witness for C9: a POST to "/" is answered exactly like GET / with
both files present on disk. -/
theorem c9_method_irrelevant_witness :
    handle ⟨some "page", some "data"⟩ ⟨"POST", "/"⟩ =
      handle ⟨some "page", some "data"⟩ ⟨"GET", "/"⟩ :=
  c9_method_irrelevant ⟨some "page", some "data"⟩ "POST" "GET" "/" (by decide) (by decide)

/-- C10: URL matching is exact string equality, so non-OPTIONS
requests for "/?x=1", "/africa.html/" and "/africa_monitoring.json?t=1"
all get the text/plain 404 fallback, in every filesystem state,
including states where both underlying files exist. -/
theorem c10_exact_match (fs : Fs) (m : String) (hm : m ≠ "OPTIONS") :
    handle fs ⟨m, "/?x=1"⟩ = fallbackResponse ∧
    handle fs ⟨m, "/africa.html/"⟩ = fallbackResponse ∧
    handle fs ⟨m, "/africa_monitoring.json?t=1"⟩ = fallbackResponse := by
  refine ⟨?_, ?_, ?_⟩ <;>
  · unfold handle handleT fallbackResponse
    dsimp only
    rw [if_neg hm, if_neg (by decide), if_neg (by decide)]

/-- Witness for C10 at method GET with both files present on disk. -/
theorem c10_exact_match_witness :
    handle ⟨some "page", some "data"⟩ ⟨"GET", "/?x=1"⟩ = fallbackResponse :=
  (c10_exact_match ⟨some "page", some "data"⟩ "GET" (by decide)).1

end AfricaServer
